import Mathlib

/-!
Shallow embedding of the `refrugee_management` Django backend
(apps `game` and `items`), restricted to the data model and
request handlers that the verified properties talk about.

Conventions of the embedding:
* Django model rows become Lean structures; the relational store becomes
  a `World` structure holding one list per table.
* Integer model fields become `Int`; primary keys become `Nat`;
  nullable fields become `Option _`; JSON list fields holding records
  with a fixed shape (inventory entries, interaction history) become
  lists of dedicated structures; timestamps (`now()`) are threaded in as
  an abstract `Nat` parameter.
* Request-body values read with `request.data.get(...)` are modelled by
  `PyVal`, which keeps Python's distinction between `None`, integers and
  strings so that Python truthiness (`if not item_id:`) is expressible.
* A DRF view handler becomes a function `World → ... → World × Resp`:
  it returns the updated store together with the HTTP response.
  Read-validate-write handlers that fail return the store unchanged.
-/

/-- A request-body value as Python sees it after JSON decoding: absent keys
come back as `None`; the ids sent by clients are integers or strings. -/
inductive PyVal where
  | none : PyVal
  | int (n : Int) : PyVal
  | str (s : String) : PyVal
  deriving Repr, DecidableEq

/-- Python truthiness test used by `if not item_id:` / `if not character_id:`
in `game/views.py`: `None`, `0` and the empty string are all falsy. -/
def pyFalsy : PyVal → Bool
  | .none => true
  | .int n => decide (n = 0)
  | .str s => decide (s = "")

/-- Equality test between a request-supplied id and a row's integer primary
key, as used by `MapItem.objects.filter(id=item_id, ...)` and
`get_object_or_404(Character, id=character_id, ...)`. -/
def pyEqId : PyVal → Nat → Bool
  | .int n, k => decide (n = (k : Int))
  | _, _ => false

/-- `game.models.Game` (the fields the handlers read). -/
structure Game where
  id : Nat
  status : String
  maxPlayers : Int
  currentTick : Int
  deriving Repr, DecidableEq

/-- `game.models.Player` (the fields the join path reads and writes). -/
structure Player where
  id : Nat
  gameId : Nat
  userId : Nat
  playerName : String
  color : String
  avatar : String
  isActive : Bool
  deriving Repr, DecidableEq

/-- `game.models.HexTile`. -/
structure HexTile where
  id : Nat
  gameId : Nat
  q : Int
  r : Int
  terrainType : String
  elevation : Int
  isPassable : Bool
  deriving Repr, DecidableEq

/-- An entry appended to `Character.inventory` by the loot handler
(`game/views.py`, `CharacterViewSet.loot`): it stores the map item's
`item_id` reference string, its type, its quantity and the loot time. -/
structure InvEntry where
  itemId : String
  itemType : String
  quantity : Int
  lootedAt : Nat
  deriving Repr, DecidableEq

/-- `game.models.Character`. -/
structure Character where
  id : Nat
  gameId : Nat
  ownerId : Nat
  characterType : String
  name : String
  health : Int
  maxHealth : Int
  stamina : Int
  maxStamina : Int
  experience : Int
  level : Int
  positionQ : Int
  positionR : Int
  status : String
  movementPoints : Int
  maxMovementPoints : Int
  inventory : List InvEntry
  inventoryCapacity : Int
  inCombat : Bool
  deriving Repr, DecidableEq

/-- `game.models.MapItem`. -/
structure MapItem where
  id : Nat
  gameId : Nat
  itemType : String
  itemId : String
  positionQ : Int
  positionR : Int
  quantity : Int
  rarity : String
  isAvailable : Bool
  isLocked : Bool
  collectedAt : Option Nat
  collectedById : Option Nat
  deriving Repr, DecidableEq

/-- A record appended to `Interactable.interactions` by the interact
handler (`game/views.py`, `InteractableViewSet.interact`). -/
structure Interaction where
  characterId : Nat
  characterName : String
  tick : Int
  timestamp : Nat
  result : String
  deriving Repr, DecidableEq

/-- `game.models.Interactable`. -/
structure Interactable where
  id : Nat
  gameId : Nat
  interactableType : String
  name : String
  positionQ : Int
  positionR : Int
  state : String
  isActive : Bool
  maxUses : Int
  currentUses : Int
  cooldownTicks : Int
  lastUsedTick : Option Int
  interactions : List Interaction
  deriving Repr, DecidableEq

/-- The relational store: one list per Django table of the `game` app. -/
structure World where
  games : List Game
  players : List Player
  hexTiles : List HexTile
  characters : List Character
  mapItems : List MapItem
  interactables : List Interactable
  deriving Repr, DecidableEq

/-- HTTP responses the modelled handlers produce. -/
inductive Resp where
  | okCharacter (c : Character)
  | okInteractable (i : Interactable)
  | okPlayerCreated (p : Player)
  | okTileCreated (t : HexTile)
  | badRequest (msg : String)
  | notFound (msg : String)
  deriving Repr, DecidableEq

/-- `CharacterViewSet.get_queryset` (`game/views.py` line 275) with no
query parameters supplied: the base queryset excludes dead characters
(`Character.objects.exclude(status='dead')`). -/
def characterQueryset (w : World) : List Character :=
  w.characters.filter (fun c => decide (c.status ≠ "dead"))

/-- `self.get_object()` on `CharacterViewSet`: DRF filters the view's
queryset by the url's primary key and 404s when nothing matches. -/
def getCharacterObject (w : World) (pk : Nat) : Option Character :=
  (characterQueryset w).find? (fun c => decide (c.id = pk))

/-- `self.get_object()` on `InteractableViewSet`: its queryset is
`Interactable.objects.all()` (no exclusion), filtered by primary key. -/
def getInteractableObject (w : World) (pk : Nat) : Option Interactable :=
  w.interactables.find? (fun i => decide (i.id = pk))

/-- `HexTile.objects.filter(game=..., q=..., r=...).first()` as used by
the move handler. -/
def tileAt (w : World) (gid : Nat) (q r : Int) : Option HexTile :=
  w.hexTiles.find? (fun t => decide (t.gameId = gid ∧ t.q = q ∧ t.r = r))

/-- `interactable.game.current_tick`: follow the foreign key to the game
row and read its tick.  Database referential integrity guarantees the
row exists; the `getD 0` default is never reached under the foreign-key
hypotheses the theorems carry. -/
def tickOf (w : World) (gid : Nat) : Int :=
  ((w.games.find? (fun g => decide (g.id = gid))).map Game.currentTick).getD 0

/-- `character.save()`: write the mutated row back, replacing the row
with the same primary key. -/
def saveCharacter (cs : List Character) (c' : Character) : List Character :=
  cs.map (fun x => if x.id = c'.id then c' else x)

/-- `map_item.save()`. -/
def saveMapItem (ms : List MapItem) (m' : MapItem) : List MapItem :=
  ms.map (fun x => if x.id = m'.id then m' else x)

/-- `interactable.save()`. -/
def saveInteractable (is : List Interactable) (i' : Interactable) : List Interactable :=
  is.map (fun x => if x.id = i'.id then i' else x)

/-- `CharacterViewSet.move` (`game/views.py` lines 309-346).
Looks the character up through the dead-excluding queryset, requires both
coordinates, requires an existing passable tile in the character's game,
then writes position and status. -/
def move (w : World) (pk : Nat) (q r : Option Int) : World × Resp :=
  match getCharacterObject w pk with
  | none => (w, .notFound "Not found.")
  | some character =>
    match q, r with
    | some q, some r =>
      match tileAt w character.gameId q r with
      | none => (w, .badRequest "Invalid tile coordinates")
      | some tile =>
        if !tile.isPassable then
          (w, .badRequest "Tile is not passable")
        else
          let c' := { character with positionQ := q, positionR := r, status := "idle" }
          ({ w with characters := saveCharacter w.characters c' }, .okCharacter c')
    | _, _ => (w, .badRequest "q and r coordinates are required")

/-- The filter of `CharacterViewSet.loot`:
`MapItem.objects.filter(id=item_id, game=character.game,
position_q=..., position_r=..., is_available=True)`. -/
def lootMatch (itemId : PyVal) (character : Character) (m : MapItem) : Bool :=
  pyEqId itemId m.id &&
    decide (m.gameId = character.gameId ∧ m.positionQ = character.positionQ ∧
      m.positionR = character.positionR ∧ m.isAvailable = true)

/-- `CharacterViewSet.loot` (`game/views.py` lines 363-406).
`now` is the wall-clock time used for the inventory entry's `looted_at`
and the item's `collected_at`. -/
def loot (w : World) (pk : Nat) (itemId : PyVal) (now : Nat) : World × Resp :=
  match getCharacterObject w pk with
  | none => (w, .notFound "Not found.")
  | some character =>
    if pyFalsy itemId then
      (w, .badRequest "item_id is required")
    else
      match w.mapItems.find? (lootMatch itemId character) with
      | none => (w, .notFound "Item not found at this position")
      | some m =>
        let c' := { character with
          inventory := character.inventory ++ [⟨m.itemId, m.itemType, m.quantity, now⟩] }
        let m' := { m with
          isAvailable := false, collectedAt := some now, collectedById := some character.id }
        ({ w with characters := saveCharacter w.characters c',
                  mapItems := saveMapItem w.mapItems m' },
         .okCharacter c')

/-- `get_object_or_404(Character, id=character_id, game=interactable.game)`
in the interact handler: note this uses the default manager, so it does
NOT exclude dead characters. -/
def interactCharacterLookup (w : World) (cid : PyVal) (gid : Nat) : Option Character :=
  w.characters.find? (fun ch => pyEqId cid ch.id && decide (ch.gameId = gid))

/-- `InteractableViewSet.interact` (`game/views.py` lines 513-563).
Checks, in order: falsy `character_id`, character lookup, co-location,
`is_active`, use limit.  No cooldown check appears anywhere on this
path.  On success it bumps `current_uses`, stamps `last_used_tick` with
the game's current tick and appends a history record. -/
def interact (w : World) (pk : Nat) (characterId : PyVal) (now : Nat) : World × Resp :=
  match getInteractableObject w pk with
  | none => (w, .notFound "Not found.")
  | some interactable =>
    if pyFalsy characterId then
      (w, .badRequest "character_id is required")
    else
      match interactCharacterLookup w characterId interactable.gameId with
      | none => (w, .notFound "Not found.")
      | some character =>
        if decide (character.positionQ ≠ interactable.positionQ ∨
            character.positionR ≠ interactable.positionR) then
          (w, .badRequest "Character must be at the same position as the interactable")
        else if !interactable.isActive then
          (w, .badRequest "Interactable is not active")
        else if decide (interactable.maxUses > 0 ∧
            interactable.currentUses ≥ interactable.maxUses) then
          (w, .badRequest "Interactable has been used maximum times")
        else
          let tick := tickOf w interactable.gameId
          let i' := { interactable with
            currentUses := interactable.currentUses + 1,
            lastUsedTick := some tick,
            interactions := interactable.interactions ++
              [⟨character.id, character.name, tick, now, "success"⟩] }
          ({ w with interactables := saveInteractable w.interactables i' },
           .okInteractable i')

/-- Python truthiness of the nullable integer field `last_used_tick`:
`None` and `0` are both falsy. -/
def lastUsedTruthy : Option Int → Bool
  | none => false
  | some t => decide (t ≠ 0)

/-- `InteractableSerializer.get_can_use` (`game/serializers.py` lines
456-467), with the interactable's game passed explicitly.  The cooldown
branch is guarded by Python truthiness of `last_used_tick` and by
`cooldown_ticks > 0`. -/
def get_can_use (g : Game) (obj : Interactable) : Bool :=
  if decide (obj.maxUses > 0 ∧ obj.currentUses ≥ obj.maxUses) then
    false
  else if lastUsedTruthy obj.lastUsedTick && decide (obj.cooldownTicks > 0) &&
      decide (g.currentTick - (obj.lastUsedTick.getD 0) < obj.cooldownTicks) then
    false
  else
    obj.isActive

/-- `PlayerCreateSerializer.validate_color` (`game/serializers.py` lines
187-191): accepted iff the string starts with `#` (that is, its first
character is `#`) and has length 7.  Stated over the character list so
that concrete instances evaluate. -/
def validate_color (value : String) : Bool :=
  (match value.data with
   | c :: _ => decide (c = '#')
   | [] => false) && decide (value.data.length = 7)

/-- `game.players.filter(is_active=True).count()`. -/
def activePlayerCount (w : World) (gid : Nat) : Nat :=
  (w.players.filter (fun p => decide (p.gameId = gid ∧ p.isActive = true))).length

/-- `POST /players/` = `PlayerViewSet.create` with
`PlayerCreateSerializer` (`game/serializers.py` lines 180-202) and
`perform_create` (`game/views.py` line 167), which binds the new player
to the requesting user.  DRF runs the field validator (`validate_color`)
before the object-level `validate`; the serializer's `game` field
resolves the primary key first.  `newId` is the database-assigned
primary key of the created row. -/
def join (w : World) (userId newId gid : Nat) (playerName color avatar : String) :
    World × Resp :=
  match w.games.find? (fun g => decide (g.id = gid)) with
  | none => (w, .badRequest "Invalid pk - object does not exist.")
  | some game =>
    if !validate_color color then
      (w, .badRequest "Color must be in hex format (#RRGGBB)")
    else if decide (game.status ≠ "waiting" ∧ game.status ≠ "active") then
      (w, .badRequest "Cannot join a finished or paused game")
    else if decide ((activePlayerCount w gid : Int) ≥ game.maxPlayers) then
      (w, .badRequest "Game is full")
    else
      let p : Player := ⟨newId, gid, userId, playerName, color, avatar, true⟩
      ({ w with players := w.players ++ [p] }, .okPlayerCreated p)

/-- Key clash test used by `HexTileSerializer.validate` on create:
`HexTile.objects.filter(game=game, q=q, r=r).exists()`. -/
def tileKeyTaken (w : World) (gid : Nat) (q r : Int) : Bool :=
  w.hexTiles.any (fun t => decide (t.gameId = gid ∧ t.q = q ∧ t.r = r))

/-- `POST /hex-tiles/` = tile creation through `HexTileSerializer`
(`game/serializers.py` lines 221-236, create branch): rejected when a
tile already exists at `(game, q, r)`, otherwise the row is inserted.
`newId` is the database-assigned primary key. -/
def createTile (w : World) (newId gid : Nat) (q r : Int)
    (terrain : String) (elevation : Int) (passable : Bool) : World × Resp :=
  if tileKeyTaken w gid q r then
    (w, .badRequest "A tile already exists at these coordinates")
  else
    let t : HexTile := ⟨newId, gid, q, r, terrain, elevation, passable⟩
    ({ w with hexTiles := w.hexTiles ++ [t] }, .okTileCreated t)

/-- `GET /characters/{pk}/` = `CharacterViewSet.retrieve`: object lookup
through the dead-excluding queryset, then serialization. -/
def retrieveCharacter (w : World) (pk : Nat) : World × Resp :=
  match getCharacterObject w pk with
  | none => (w, .notFound "Not found.")
  | some c => (w, .okCharacter c)

/-- The writable fields of `CharacterUpdateSerializer` that this
embedding carries (`game/serializers.py` lines 344-367); absent fields
are left unchanged, as under a partial update. -/
structure CharacterUpdateInput where
  health : Option Int
  stamina : Option Int
  positionQ : Option Int
  positionR : Option Int
  status : Option String
  deriving Repr, DecidableEq

/-- `CharacterUpdateSerializer.validate_health`. -/
def healthTooHigh (c : Character) : Option Int → Bool
  | none => false
  | some h => decide (h > c.maxHealth)

/-- `CharacterUpdateSerializer.validate_stamina`. -/
def staminaTooHigh (c : Character) : Option Int → Bool
  | none => false
  | some s => decide (s > c.maxStamina)

/-- The `status` serializer field is generated from the model's
`CHARACTER_STATUS_CHOICES` (`game/models.py` lines 209-216), so DRF
rejects values outside the choice list. -/
def statusChoiceOk : Option String → Bool
  | none => true
  | some s => decide (s ∈ ["idle", "moving", "looting", "interacting", "in_combat", "dead"])

/-- `PUT/PATCH /characters/{pk}/` = `CharacterViewSet.update` /
`partial_update` with `CharacterUpdateSerializer`: object lookup through
the dead-excluding queryset, field validation, then the write. -/
def updateCharacter (w : World) (pk : Nat) (inp : CharacterUpdateInput) : World × Resp :=
  match getCharacterObject w pk with
  | none => (w, .notFound "Not found.")
  | some c =>
    if healthTooHigh c inp.health then
      (w, .badRequest "Health cannot exceed max_health")
    else if staminaTooHigh c inp.stamina then
      (w, .badRequest "Stamina cannot exceed max_stamina")
    else if !statusChoiceOk inp.status then
      (w, .badRequest "not a valid choice.")
    else
      let c' := { c with
        health := inp.health.getD c.health,
        stamina := inp.stamina.getD c.stamina,
        positionQ := inp.positionQ.getD c.positionQ,
        positionR := inp.positionR.getD c.positionR,
        status := inp.status.getD c.status }
      ({ w with characters := saveCharacter w.characters c' }, .okCharacter c')

/-- A JSON value as Python's decoder delivers it to a `JSONField`.
Numbers are modelled as rationals (`int`/`float` values; IEEE
non-finite values are outside this embedding).  Booleans stay distinct
from numbers, exactly as in JSON and in decoded Python data. -/
inductive JVal where
  | jnull
  | jbool (b : Bool)
  | jnum (x : Rat)
  | jstr (s : String)
  | jarr (elems : List JVal)
  | jobj (fields : List (String × JVal))

/-- The test `isinstance(val, (int, float))` from
`validate_stat_modifiers` (`items/serializers.py`).  In Python, `bool`
is a subclass of `int`, so `isinstance(True, int)` is `True`: decoded
JSON booleans pass this check. -/
def pyIsNumber : JVal → Bool
  | .jnum _ => true
  | .jbool _ => true
  | _ => false

/-- Python's `str.strip()`, over the character list: whitespace is
removed from both ends. -/
def pyStrip (s : String) : List Char :=
  ((s.data.dropWhile Char.isWhitespace).reverse.dropWhile Char.isWhitespace).reverse

/-- `ItemCreateSerializer.validate_name` / the generated `CharField`
blank check: rejected when the stripped value is empty. -/
def validate_name (value : String) : Bool :=
  decide (pyStrip value ≠ [])

/-- The rarity choices, as declared on the model field
(`items/models.py` lines 8-12) and repeated in
`ItemCreateSerializer.validate_rarity`. -/
def rarityChoices : List String :=
  ["common", "rare", "legendary"]

/-- `ItemCreateSerializer.validate_rarity`; the serializer field
generated from the model's `choices` enforces the same set on update. -/
def validate_rarity (value : String) : Bool :=
  decide (value ∈ rarityChoices)

/-- `validate_stack_size` (both item serializers). -/
def validate_stack_size (value : Int) : Bool :=
  decide (1 ≤ value ∧ value ≤ 9999)

/-- `validate_cooldown` (both item serializers). -/
def validate_cooldown (value : Int) : Bool :=
  decide (0 ≤ value)

/-- `validate_upgrade_level` (both item serializers). -/
def validate_upgrade_level (value : Int) : Bool :=
  decide (0 ≤ value ∧ value ≤ 100)

/-- `validate_drop_rate` (both item serializers). -/
def validate_drop_rate (value : Rat) : Bool :=
  decide (0 ≤ value ∧ value ≤ 1)

/-- `validate_durability` (both item serializers): `None` passes, a
present value must be non-negative. -/
def validate_durability : Option Int → Bool
  | Option.none => true
  | some v => decide (0 ≤ v)

/-- `validate_stat_modifiers` (both item serializers): `None` passes;
otherwise the value must be a dict whose values all satisfy
`isinstance(val, (int, float))`. -/
def validate_stat_modifiers : Option JVal → Bool
  | Option.none => true
  | some (.jobj kvs) => kvs.all (fun kv => pyIsNumber kv.2)
  | some _ => false

/-- The framework-level check on a generated `CharField`
(`allow_blank=False`, `trim_whitespace=True`): blank or whitespace-only
input is rejected before any custom validator runs. -/
def charFieldOk (s : String) : Bool :=
  decide (pyStrip s ≠ [])

/-- An item create/update request body, restricted to the validated
fields.  `Option.none` means the field is absent from the request (or,
for `durability`/`stat_modifiers`, JSON `null`, which the validators
treat identically).  The remaining writable fields (`description`,
`icon`, `effect`, `category`, `sub_category`, `is_active`) carry no
validation beyond their types and are omitted. -/
structure ItemInput where
  name : Option String
  type : Option String
  rarity : Option String
  stackSize : Option Int
  cooldown : Option Int
  upgradeLevel : Option Int
  dropRate : Option Rat
  durability : Option Int
  statModifiers : Option JVal

/-- Run a field validator only when the field is present. -/
def optOk (f : α → Bool) : Option α → Bool
  | Option.none => true
  | some v => f v

/-- `POST /items/` validation = `ItemCreateSerializer`
(`items/serializers.py` lines 36-108).  `name`, `type` and `rarity` are
required model fields without defaults, so the generated serializer
fields demand them; the remaining fields have model defaults or are
nullable and are optional.  Returns `true` iff the request is accepted. -/
def itemCreateValid (inp : ItemInput) : Bool :=
  (match inp.name with | Option.none => false | some s => charFieldOk s && validate_name s) &&
  (match inp.type with | Option.none => false | some s => charFieldOk s) &&
  (match inp.rarity with | Option.none => false | some ra => validate_rarity ra) &&
  optOk validate_stack_size inp.stackSize &&
  optOk validate_cooldown inp.cooldown &&
  optOk validate_upgrade_level inp.upgradeLevel &&
  optOk validate_drop_rate inp.dropRate &&
  validate_durability inp.durability &&
  validate_stat_modifiers inp.statModifiers

/-- `PATCH /items/{pk}/` validation = `ItemUpdateSerializer`
(`items/serializers.py` lines 111-168) under a partial update: every
field is optional; `name` is still guarded by the generated
`CharField`'s blank check and `rarity` by the generated choice field,
while the explicit validators cover the numeric fields. -/
def itemUpdateValid (inp : ItemInput) : Bool :=
  optOk charFieldOk inp.name &&
  optOk charFieldOk inp.type &&
  optOk validate_rarity inp.rarity &&
  optOk validate_stack_size inp.stackSize &&
  optOk validate_cooldown inp.cooldown &&
  optOk validate_upgrade_level inp.upgradeLevel &&
  optOk validate_drop_rate inp.dropRate &&
  validate_durability inp.durability &&
  validate_stat_modifiers inp.statModifiers

/-- The specification's reading of a `#RRGGBB` color: a `#` followed by
exactly six hexadecimal digits.  Stated from the claim's words, to be
compared with the code's `validate_color`. -/
def spec_isRRGGBB (s : String) : Bool :=
  match s.data with
  | '#' :: rest =>
    decide (rest.length = 6) && rest.all (fun c =>
      c.isDigit || (decide ('a' ≤ c) && decide (c ≤ 'f')) || (decide ('A' ≤ c) && decide (c ≤ 'F')))
  | _ => false

/-- The specification's reading of a numeric stat-modifier value: an
actual number, not a boolean.  Stated from the claim's words, to be
compared with the code's `pyIsNumber`. -/
def spec_isNumeric : JVal → Bool
  | .jnum _ => true
  | _ => false

/-- Whether every value of a (present) stat-modifier mapping is numeric
in the specification's sense. -/
def spec_statModifiersNumeric : Option JVal → Bool
  | Option.none => true
  | some (.jobj kvs) => kvs.all (fun kv => spec_isNumeric kv.2)
  | some _ => false

/-- One tile-creation request, for reasoning about sequences of
`createTile` calls. -/
structure TileOp where
  newId : Nat
  gid : Nat
  q : Int
  r : Int
  terrain : String
  elevation : Int
  passable : Bool

/-- Apply a sequence of tile-creation requests in order, keeping the
store each request produces. -/
def applyTileOps (w : World) (ops : List TileOp) : World :=
  ops.foldl (fun w o => (createTile w o.newId o.gid o.q o.r o.terrain o.elevation o.passable).1) w

/-- At most one tile per `(game, q, r)`: the `unique_together`
constraint of `HexTile.Meta` (`game/models.py` lines 191-198), phrased
over the list of rows. -/
def tilesUnique (ts : List HexTile) : Prop :=
  ts.Pairwise (fun a b => ¬(a.gameId = b.gameId ∧ a.q = b.q ∧ a.r = b.r))

/-- Concrete rows used by the witness and counterexample statements. -/
def gSample : Game := ⟨1, "active", 32, 10⟩

/-- A waiting game for the join witnesses. -/
def gWaiting : Game := ⟨1, "waiting", 32, 0⟩

/-- A passable plains tile at the origin of game 1. -/
def tSample : HexTile := ⟨1, 1, 0, 0, "plains", 0, true⟩

/-- An impassable water tile at (1, 0) of game 1. -/
def tWater : HexTile := ⟨2, 1, 1, 0, "water", 0, false⟩

/-- An idle character of game 1 standing at the origin. -/
def cSample : Character :=
  ⟨1, 1, 1, "scout", "Alice", 100, 100, 100, 100, 0, 1, 0, 0, "idle", 3, 3, [], 20, false⟩

/-- A dead character of game 1 (same shape as `cSample`). -/
def cDead : Character :=
  ⟨2, 1, 1, "scout", "Bob", 0, 100, 100, 100, 0, 1, 0, 0, "dead", 3, 3, [], 20, false⟩

/-- An available map item of game 1 lying at the origin. -/
def mSample : MapItem :=
  ⟨5, 1, "potion", "potion_small", 0, 0, 2, "common", true, false, Option.none, Option.none⟩

/-- An active two-use interactable of game 1 at the origin, never used. -/
def iTwoUse : Interactable :=
  ⟨7, 1, "chest", "Old Chest", 0, 0, "active", true, 2, 0, 0, Option.none, []⟩

/-- An active interactable of game 1 at the origin that is inside its
cooldown window at `gSample`'s tick 10: cooldown 3, last used at tick 8. -/
def iCooling : Interactable :=
  ⟨8, 1, "shrine", "Shrine", 0, 0, "active", true, 5, 1, 3, some 8, []⟩

/-- A game row at tick 3, for the `can_use` counterexample. -/
def gTick3 : Game := ⟨1, "active", 32, 3⟩

/-- An active interactable last used at tick 0: its `last_used_tick` is
set, yet falsy to Python. -/
def iUsedAtZero : Interactable :=
  ⟨9, 1, "shrine", "Shrine", 0, 0, "active", true, 0, 0, 5, some 0, []⟩

/-- An active interactable under its use limit with `cooldown_ticks = 5`
and `last_used_tick = 10` (the spec's worked cooldown example). -/
def iCd5 : Interactable :=
  ⟨10, 1, "shrine", "Shrine", 0, 0, "active", true, 3, 0, 5, some 10, []⟩

/-- The success mutation of the interact handler: bump `current_uses`,
stamp `last_used_tick` with the given tick, append the history record. -/
def interactNext (i : Interactable) (ch : Character) (tick : Int) (t : Nat) : Interactable :=
  { i with
    currentUses := i.currentUses + 1,
    lastUsedTick := some tick,
    interactions := i.interactions ++ [⟨ch.id, ch.name, tick, t, "success"⟩] }

/-- An accepted item-creation request whose `stat_modifiers` carries a
boolean value. -/
def itemInputBool : ItemInput :=
  ⟨some "Sword", some "weapon", some "rare", Option.none, Option.none, Option.none,
   Option.none, Option.none, some (JVal.jobj [("strength", JVal.jbool true)])⟩

-- ======================================================================
-- Helper lemmas
-- ======================================================================

theorem find?_save_self {α : Type} (key : α → Nat) (l : List α) (b : α)
    (hx : ∃ x ∈ l, key x = key b) :
    (l.map (fun x => if key x = key b then b else x)).find?
      (fun x => decide (key x = key b)) = some b := by
  induction l with
  | nil => simp at hx
  | cons a t ih =>
    obtain ⟨x, hxm, hxk⟩ := hx
    by_cases h : key a = key b
    · simp [h]
    · have hxt : x ∈ t := by
        rcases List.mem_cons.mp hxm with rfl | ht
        · exact absurd hxk h
        · exact ht
      simpa [h] using ih ⟨x, hxt, hxk⟩

theorem mem_save_of_key_ne {α : Type} (key : α → Nat) (l : List α) (b c : α)
    (hc : c ∈ l) (hne : key c ≠ key b) :
    c ∈ l.map (fun x => if key x = key b then b else x) := by
  have : (fun x => if key x = key b then b else x) c = c := by simp [hne]
  exact this ▸ List.mem_map_of_mem _ hc

theorem getCharacterObject_eq_none_of_dead (w : World) (pk : Nat)
    (h : ∀ c ∈ w.characters, c.id = pk → c.status = "dead") :
    getCharacterObject w pk = none := by
  unfold getCharacterObject characterQueryset
  rw [List.find?_eq_none]
  intro x hx hdec
  obtain ⟨hmem, halive⟩ := List.mem_filter.mp hx
  have hid : x.id = pk := of_decide_eq_true hdec
  exact (of_decide_eq_true halive) (h x hmem hid)

-- ======================================================================
-- C1: move succeeds iff the target tile exists and is passable
-- ======================================================================

/-- Claim C1: for every character (addressable through the character
queryset) and every coordinate pair `(q, r)`, `move` succeeds if and
only if a `HexTile` exists at `(q, r)` in the character's game and that
tile's `is_passable` is true; on success the character's position
becomes `(q, r)` and its status becomes `idle` with every other field
unchanged; on failure the store is left untouched.  The uniqueness
hypothesis is the database's `unique_together` constraint on
`(game, q, r)`. -/
theorem move_success_iff (w : World) (pk : Nat) (c : Character) (q r : Int)
    (hc : getCharacterObject w pk = some c)
    (huniq : tilesUnique w.hexTiles) :
    ((∃ c', (move w pk (some q) (some r)).2 = .okCharacter c') ↔
      ∃ t ∈ w.hexTiles, t.gameId = c.gameId ∧ t.q = q ∧ t.r = r ∧ t.isPassable = true) ∧
    (∀ c', (move w pk (some q) (some r)).2 = .okCharacter c' →
      c' = { c with positionQ := q, positionR := r, status := "idle" } ∧
      (move w pk (some q) (some r)).1 =
        { w with characters := saveCharacter w.characters c' }) ∧
    ((¬ ∃ c', (move w pk (some q) (some r)).2 = .okCharacter c') →
      (move w pk (some q) (some r)).1 = w) := by
  cases htile : tileAt w c.gameId q r with
  | none =>
    have hmove : move w pk (some q) (some r) = (w, .badRequest "Invalid tile coordinates") := by
      simp [move, hc, htile]
    rw [hmove]
    refine ⟨⟨fun ⟨c', hc'⟩ => Resp.noConfusion hc', ?_⟩,
            fun c' hc' => Resp.noConfusion hc', fun _ => rfl⟩
    rintro ⟨t, htm, hkey1, hkey2, hkey3, _⟩
    have hsome : (tileAt w c.gameId q r).isSome := by
      rw [tileAt, List.find?_isSome]
      exact ⟨t, htm, by simp [hkey1, hkey2, hkey3]⟩
    rw [htile] at hsome
    cases hsome
  | some t =>
    have htile' := htile
    rw [tileAt] at htile'
    have hkeyd := List.find?_some htile'
    have htm := List.mem_of_find?_eq_some htile'
    simp only [decide_eq_true_eq] at hkeyd
    obtain ⟨hk1, hk2, hk3⟩ := hkeyd
    by_cases hpass : t.isPassable = true
    · have hmove : move w pk (some q) (some r) =
          ({ w with
              characters := saveCharacter w.characters
                ({ c with positionQ := q, positionR := r, status := "idle" }) },
           .okCharacter ({ c with positionQ := q, positionR := r, status := "idle" })) := by
        simp [move, hc, htile, hpass]
      rw [hmove]
      refine ⟨⟨fun _ => ⟨t, htm, hk1, hk2, hk3, hpass⟩, fun _ => ⟨_, rfl⟩⟩, ?_,
              fun hno => absurd ⟨_, rfl⟩ hno⟩
      intro c' hc'
      have hc'' : Resp.okCharacter { c with positionQ := q, positionR := r, status := "idle" } =
          Resp.okCharacter c' := hc'
      injection hc'' with h
      subst h
      exact ⟨rfl, rfl⟩
    · have hpassf : t.isPassable = false := by simpa using hpass
      have hmove : move w pk (some q) (some r) = (w, .badRequest "Tile is not passable") := by
        simp [move, hc, htile, hpassf]
      rw [hmove]
      refine ⟨⟨fun ⟨c', hc'⟩ => Resp.noConfusion hc', ?_⟩,
              fun c' hc' => Resp.noConfusion hc', fun _ => rfl⟩
      rintro ⟨t', ht'm, h1, h2, h3, hp'⟩
      have hsymm : Symmetric
          (fun a b : HexTile => ¬(a.gameId = b.gameId ∧ a.q = b.q ∧ a.r = b.r)) := by
        intro a b hab hx
        exact hab ⟨hx.1.symm, hx.2.1.symm, hx.2.2.symm⟩
      have hne : t ≠ t' := by
        intro he
        rw [← he, hpassf] at hp'
        cases hp'
      exact absurd ⟨hk1.trans h1.symm, hk2.trans h2.symm, hk3.trans h3.symm⟩
        ((huniq.forall hsymm) htm ht'm hne)

/-- Witness for C1 at a concrete store: one game, a passable origin tile
and an idle character. -/
theorem move_success_iff_witness :
    ((∃ c', (move ⟨[gSample], [], [tSample], [cSample], [], []⟩ 1 (some 0) (some 0)).2 =
        .okCharacter c') ↔
      ∃ t ∈ ([tSample] : List HexTile),
        t.gameId = cSample.gameId ∧ t.q = 0 ∧ t.r = 0 ∧ t.isPassable = true) ∧
    (∀ c', (move ⟨[gSample], [], [tSample], [cSample], [], []⟩ 1 (some 0) (some 0)).2 =
        .okCharacter c' →
      c' = { cSample with positionQ := 0, positionR := 0, status := "idle" } ∧
      (move ⟨[gSample], [], [tSample], [cSample], [], []⟩ 1 (some 0) (some 0)).1 =
        { games := [gSample], players := [], hexTiles := [tSample],
          characters := saveCharacter [cSample] c', mapItems := [], interactables := [] }) ∧
    ((¬ ∃ c', (move ⟨[gSample], [], [tSample], [cSample], [], []⟩ 1 (some 0) (some 0)).2 =
        .okCharacter c') →
      (move ⟨[gSample], [], [tSample], [cSample], [], []⟩ 1 (some 0) (some 0)).1 =
        ⟨[gSample], [], [tSample], [cSample], [], []⟩) :=
  move_success_iff ⟨[gSample], [], [tSample], [cSample], [], []⟩ 1 cSample 0 0
    (by decide) (by simp [tilesUnique])

-- ======================================================================
-- C4: get_can_use — cooldown gating
-- ======================================================================

/-- Claim C4 counterexample: the claim "can_use is false whenever
last_used_tick is set and (current_tick − last_used_tick) <
cooldown_ticks (for an interactable under its use limit)" fails on the
code: `iUsedAtZero` has `last_used_tick = some 0` (set) and
`3 − 0 < 5`, yet `get_can_use` returns `is_active = true`, because the
cooldown branch is guarded by Python truthiness of `last_used_tick`
and `0` is falsy. -/
theorem get_can_use_claim_counterexample :
    iUsedAtZero.lastUsedTick = some 0 ∧
    ¬(iUsedAtZero.maxUses > 0 ∧ iUsedAtZero.currentUses ≥ iUsedAtZero.maxUses) ∧
    gTick3.currentTick - 0 < iUsedAtZero.cooldownTicks ∧
    iUsedAtZero.isActive = true ∧
    get_can_use gTick3 iUsedAtZero = true := by
  decide

/-- Claim C4 (amended): `can_use` is false if `max_uses > 0` and
`current_uses ≥ max_uses`; otherwise false if `last_used_tick` is set to
a NONZERO tick, `cooldown_ticks > 0`, and
`current_tick − last_used_tick < cooldown_ticks`; otherwise it equals
`is_active`.  The spec's worked example (cooldown 5, last used at 10:
false at tick 14, true at tick 15) holds as stated. -/
theorem get_can_use_spec (g : Game) (i : Interactable) :
    (i.maxUses > 0 → i.currentUses ≥ i.maxUses → get_can_use g i = false) ∧
    (∀ t : Int, i.lastUsedTick = some t → t ≠ 0 → i.cooldownTicks > 0 →
      g.currentTick - t < i.cooldownTicks → get_can_use g i = false) ∧
    (¬(i.maxUses > 0 ∧ i.currentUses ≥ i.maxUses) →
      (∀ t : Int, i.lastUsedTick = some t → t ≠ 0 → i.cooldownTicks > 0 →
        ¬(g.currentTick - t < i.cooldownTicks)) →
      get_can_use g i = i.isActive) ∧
    get_can_use ⟨1, "active", 32, 14⟩ iCd5 = false ∧
    get_can_use ⟨1, "active", 32, 15⟩ iCd5 = true := by
  refine ⟨?_, ?_, ?_, by decide, by decide⟩
  · intro h1 h2
    simp [get_can_use, h1, h2]
  · intro t ht hnz hcd hdiff
    by_cases hmax : i.maxUses > 0 ∧ i.currentUses ≥ i.maxUses
    · simp [get_can_use, hmax]
    · simp [get_can_use, hmax, lastUsedTruthy, ht, hnz, hcd, hdiff]
  · intro hmax hcool
    have hcond : (lastUsedTruthy i.lastUsedTick && decide (i.cooldownTicks > 0) &&
        decide (g.currentTick - (i.lastUsedTick.getD 0) < i.cooldownTicks)) = false := by
      cases hlu : i.lastUsedTick with
      | none => simp [lastUsedTruthy]
      | some t =>
        by_cases hnz : t = 0
        · simp [lastUsedTruthy, hnz]
        · by_cases hcd : i.cooldownTicks > 0
          · have hge := hcool t hlu hnz hcd
            simp [lastUsedTruthy, hnz, hcd, hge]
          · simp [lastUsedTruthy, hcd]
    rw [get_can_use, if_neg (by simpa using hmax), if_neg (by simp [hcond])]

/-- Witness for C4's amended theorem: the cooldown clause applied to a
concrete interactable last used at tick 8 with cooldown 3, at tick 10. -/
theorem get_can_use_spec_witness :
    get_can_use gSample iCooling = false :=
  (get_can_use_spec gSample iCooling).2.1 8 rfl (by decide) (by decide) (by decide)

-- ======================================================================
-- C5: join validation
-- ======================================================================

/-- Claim C5 counterexample: the claim "join fails with a validation
error if color is not of the form #RRGGBB" fails on the code: the color
`"#zzzzzz"` is not of that form (its digits are not hexadecimal), yet a
join request carrying it succeeds, because `validate_color` only checks
the leading `#` and the length. -/
theorem join_color_counterexample :
    spec_isRRGGBB "#zzzzzz" = false ∧
    validate_color "#zzzzzz" = true ∧
    join ⟨[gWaiting], [], [], [], [], []⟩ 4 1 1 "Alice" "#zzzzzz" "" =
      (⟨[gWaiting], [⟨1, 1, 4, "Alice", "#zzzzzz", "", true⟩], [], [], [], []⟩,
       .okPlayerCreated ⟨1, 1, 4, "Alice", "#zzzzzz", "", true⟩) := by
  refine ⟨by decide, by decide, ?_⟩
  decide

/-- Claim C5 (amended): join fails if the color does not start with `#`
or its length is not 7 (hexadecimal digits are not otherwise checked);
fails if the game's status is neither `waiting` nor `active`; fails if
the count of active players in the game is at least `max_players`;
otherwise it creates a `Player` row bound to the requesting user. -/
theorem join_spec (w : World) (uid nid gid : Nat) (pn color av : String) (g : Game)
    (hg : w.games.find? (fun x => decide (x.id = gid)) = some g) :
    (validate_color color = false →
      join w uid nid gid pn color av =
        (w, .badRequest "Color must be in hex format (#RRGGBB)")) ∧
    (validate_color color = true → g.status ≠ "waiting" → g.status ≠ "active" →
      join w uid nid gid pn color av =
        (w, .badRequest "Cannot join a finished or paused game")) ∧
    (validate_color color = true → (g.status = "waiting" ∨ g.status = "active") →
      (activePlayerCount w gid : Int) ≥ g.maxPlayers →
      join w uid nid gid pn color av = (w, .badRequest "Game is full")) ∧
    (validate_color color = true → (g.status = "waiting" ∨ g.status = "active") →
      (activePlayerCount w gid : Int) < g.maxPlayers →
      join w uid nid gid pn color av =
        ({ w with players := w.players ++ [⟨nid, gid, uid, pn, color, av, true⟩] },
         .okPlayerCreated ⟨nid, gid, uid, pn, color, av, true⟩)) := by
  refine ⟨?_, ?_, ?_, ?_⟩
  · intro hcol
    simp [join, hg, hcol]
  · intro hcol h1 h2
    simp [join, hg, hcol, h1, h2]
  · intro hcol hst hcnt
    have hst' : ¬(g.status ≠ "waiting" ∧ g.status ≠ "active") := by
      rcases hst with h | h <;> simp [h]
    simp [join, hg, hcol, hst', hcnt]
  · intro hcol hst hcnt
    have hst' : ¬(g.status ≠ "waiting" ∧ g.status ≠ "active") := by
      rcases hst with h | h <;> simp [h]
    have hcnt' : ¬((activePlayerCount w gid : Int) ≥ g.maxPlayers) := by
      exact not_le.mpr hcnt
    simp [join, hg, hcol, hst', hcnt']

/-- Witness for C5's amended theorem: a join into an empty waiting game
with a well-formed color succeeds and binds the player to user 4. -/
theorem join_spec_witness :
    join ⟨[gWaiting], [], [], [], [], []⟩ 4 1 1 "Alice" "#FF0000" "" =
      (⟨[gWaiting], [⟨1, 1, 4, "Alice", "#FF0000", "", true⟩], [], [], [], []⟩,
       .okPlayerCreated ⟨1, 1, 4, "Alice", "#FF0000", "", true⟩) := by
  have h := (join_spec ⟨[gWaiting], [], [], [], [], []⟩ 4 1 1 "Alice" "#FF0000" "" gWaiting
    (by decide)).2.2.2 (by decide) (Or.inl (by decide)) (by decide)
  simpa using h

-- ======================================================================
-- C9: interact never checks cooldown
-- ======================================================================

/-- Claim C9: `iCooling` is inside its cooldown window at `gSample`'s
tick 10 (cooldown 3, last used at tick 8, 10 − 8 < 3), so `can_use`
reports false; yet an interact request by the co-located character
`cSample` on this active interactable, which is under its use limit,
succeeds and increments `current_uses` from 1 to 2. -/
theorem interact_ignores_cooldown :
    iCooling.cooldownTicks = 3 ∧ iCooling.lastUsedTick = some 8 ∧
    gSample.currentTick = 10 ∧
    get_can_use gSample iCooling = false ∧
    interact ⟨[gSample], [], [], [cSample], [], [iCooling]⟩ 8 (PyVal.int 1) 42 =
      (⟨[gSample], [], [], [cSample], [],
        [⟨8, 1, "shrine", "Shrine", 0, 0, "active", true, 5, 2, 3, some 10,
          [⟨1, "Alice", 10, 42, "success"⟩]⟩]⟩,
       .okInteractable ⟨8, 1, "shrine", "Shrine", 0, 0, "active", true, 5, 2, 3, some 10,
          [⟨1, "Alice", 10, 42, "success"⟩]⟩) := by
  refine ⟨rfl, rfl, rfl, by decide, ?_⟩
  decide

-- ======================================================================
-- C10: falsy ids are rejected as missing parameters
-- ======================================================================

/-- Claim C10: when the addressed character (resp. interactable) exists,
a loot request whose `item_id` is falsy — absent (`None`), `0`, or the
empty string — fails with the 400 "required" error and leaves the store
untouched, before any item lookup; likewise an interact request with a
falsy `character_id`.  In particular an id of `0` is treated as a
missing parameter. -/
theorem falsy_id_is_rejected :
    (∀ (w : World) (pk : Nat) (c : Character) (v : PyVal) (now : Nat),
      getCharacterObject w pk = some c → pyFalsy v = true →
      loot w pk v now = (w, .badRequest "item_id is required")) ∧
    (∀ (w : World) (pk : Nat) (i : Interactable) (v : PyVal) (now : Nat),
      getInteractableObject w pk = some i → pyFalsy v = true →
      interact w pk v now = (w, .badRequest "character_id is required")) ∧
    pyFalsy (PyVal.int 0) = true ∧ pyFalsy (PyVal.str "") = true ∧
    pyFalsy PyVal.none = true := by
  refine ⟨?_, ?_, by decide, by decide, by decide⟩
  · intro w pk c v now hc hv
    simp [loot, hc, hv]
  · intro w pk i v now hi hv
    simp [interact, hi, hv]

/-- Witness for C10: a loot request with `item_id = 0` and an interact
request with an absent `character_id`, both against existing objects. -/
theorem falsy_id_is_rejected_witness :
    loot ⟨[gSample], [], [tSample], [cSample], [], []⟩ 1 (PyVal.int 0) 3 =
      (⟨[gSample], [], [tSample], [cSample], [], []⟩, .badRequest "item_id is required") ∧
    interact ⟨[gSample], [], [], [], [], [iTwoUse]⟩ 7 PyVal.none 3 =
      (⟨[gSample], [], [], [], [], [iTwoUse]⟩, .badRequest "character_id is required") :=
  ⟨falsy_id_is_rejected.1 _ 1 cSample _ 3 (by decide) (by decide),
   falsy_id_is_rejected.2.1 _ 7 iTwoUse _ 3 (by decide) (by decide)⟩

-- ======================================================================
-- C2: loot succeeds at most once per map item
-- ======================================================================

/-- After saving a collected (unavailable) item, every stored row with
its primary key is unavailable. -/
theorem unavailable_after_saveMapItem (ms : List MapItem) (m' : MapItem)
    (hav : m'.isAvailable = false) :
    ∀ x ∈ saveMapItem ms m', x.id = m'.id → x.isAvailable = false := by
  intro x hx hxk
  rw [saveMapItem] at hx
  obtain ⟨a, ha, hfa⟩ := List.mem_map.mp hx
  by_cases h : a.id = m'.id
  · rw [if_pos h] at hfa
    rw [← hfa]
    exact hav
  · rw [if_neg h] at hfa
    rw [← hfa] at hxk
    exact absurd hxk h

/-- Claim C2: with the character addressable and `item_id = n` nonzero,
loot succeeds iff an available `MapItem` with primary key `n` exists in
the character's game at the character's exact position; absent such an
item the response is the 404 "Item not found at this position" with the
store untouched; on success the handler appends the inventory entry
`{item_id, item_type, quantity, timestamp}` and marks the row
unavailable with `collected_at`/`collected_by` set; and after any
successful loot, a second loot attempt for the same `item_id` — by any
character — always fails with a 404. -/
theorem loot_at_most_once (w : World) (pk : Nat) (c : Character) (n : Int) (now : Nat)
    (hc : getCharacterObject w pk = some c) (hn : n ≠ 0) :
    ((∃ c', (loot w pk (PyVal.int n) now).2 = .okCharacter c') ↔
      ∃ m ∈ w.mapItems, n = (m.id : Int) ∧ m.gameId = c.gameId ∧
        m.positionQ = c.positionQ ∧ m.positionR = c.positionR ∧ m.isAvailable = true) ∧
    ((¬∃ m ∈ w.mapItems, n = (m.id : Int) ∧ m.gameId = c.gameId ∧
        m.positionQ = c.positionQ ∧ m.positionR = c.positionR ∧ m.isAvailable = true) →
      loot w pk (PyVal.int n) now = (w, .notFound "Item not found at this position")) ∧
    (∀ m, w.mapItems.find? (lootMatch (PyVal.int n) c) = some m →
      loot w pk (PyVal.int n) now =
        ({ w with
            characters := saveCharacter w.characters
              ({ c with
                  inventory := c.inventory ++ [⟨m.itemId, m.itemType, m.quantity, now⟩] }),
            mapItems := saveMapItem w.mapItems
              ({ m with
                  isAvailable := false, collectedAt := some now,
                  collectedById := some c.id }) },
         .okCharacter
           ({ c with
               inventory := c.inventory ++ [⟨m.itemId, m.itemType, m.quantity, now⟩] }))) ∧
    (∀ w' resp, loot w pk (PyVal.int n) now = (w', resp) →
      (∃ c', resp = .okCharacter c') →
      ∀ pk2 now2, ∃ msg, (loot w' pk2 (PyVal.int n) now2).2 = .notFound msg) := by
  have hfalsy : pyFalsy (PyVal.int n) = false := by simp [pyFalsy, hn]
  cases hfind : w.mapItems.find? (lootMatch (PyVal.int n) c) with
  | none =>
    have heq : loot w pk (PyVal.int n) now =
        (w, .notFound "Item not found at this position") := by
      simp [loot, hc, hfalsy, hfind]
    refine ⟨?_, fun _ => heq, ?_, ?_⟩
    · rw [heq]
      constructor
      · rintro ⟨c', hc'⟩
        exact Resp.noConfusion hc'
      · rintro ⟨m, hm, h1, h2, h3, h4, h5⟩
        have hsome : (w.mapItems.find? (lootMatch (PyVal.int n) c)).isSome := by
          rw [List.find?_isSome]
          exact ⟨m, hm, by simp [lootMatch, pyEqId, h1, h2, h3, h4, h5]⟩
        rw [hfind] at hsome
        cases hsome
    · intro m2 hm2
      exact Option.noConfusion hm2
    · intro w' resp hr hok
      rw [heq, Prod.mk.injEq] at hr
      obtain ⟨hw', hr'⟩ := hr
      obtain ⟨c', hc'⟩ := hok
      rw [← hr'] at hc'
      exact Resp.noConfusion hc'
  | some m =>
    have hpred := List.find?_some hfind
    have hmem := List.mem_of_find?_eq_some hfind
    rw [lootMatch, Bool.and_eq_true] at hpred
    obtain ⟨hpid, hrest⟩ := hpred
    have hid : n = (m.id : Int) := by simpa [pyEqId] using hpid
    obtain ⟨hg, hq, hr', hav⟩ := of_decide_eq_true hrest
    have heq : loot w pk (PyVal.int n) now =
        ({ w with
            characters := saveCharacter w.characters
              ({ c with
                  inventory := c.inventory ++ [⟨m.itemId, m.itemType, m.quantity, now⟩] }),
            mapItems := saveMapItem w.mapItems
              ({ m with
                  isAvailable := false, collectedAt := some now,
                  collectedById := some c.id }) },
         .okCharacter
           ({ c with
               inventory := c.inventory ++ [⟨m.itemId, m.itemType, m.quantity, now⟩] })) := by
      simp [loot, hc, hfalsy, hfind]
    refine ⟨?_, ?_, ?_, ?_⟩
    · rw [heq]
      exact ⟨fun _ => ⟨m, hmem, hid, hg, hq, hr', hav⟩, fun _ => ⟨_, rfl⟩⟩
    · intro hno
      exact absurd ⟨m, hmem, hid, hg, hq, hr', hav⟩ hno
    · intro m2 hm2
      injection hm2 with hm2'
      rw [← hm2']
      exact heq
    · intro w' resp hr hok pk2 now2
      rw [heq, Prod.mk.injEq] at hr
      obtain ⟨hw', hresp⟩ := hr
      rw [← hw']
      cases hc2 : getCharacterObject
          ({ w with
              characters := saveCharacter w.characters
                ({ c with
                    inventory := c.inventory ++ [⟨m.itemId, m.itemType, m.quantity, now⟩] }),
              mapItems := saveMapItem w.mapItems
                ({ m with
                    isAvailable := false, collectedAt := some now,
                    collectedById := some c.id }) }) pk2 with
      | none =>
        exact ⟨"Not found.", by simp [loot, hc2]⟩
      | some c2 =>
        have hnone :
            (saveMapItem w.mapItems
              ({ m with
                  isAvailable := false, collectedAt := some now,
                  collectedById := some c.id })).find? (lootMatch (PyVal.int n) c2) = none := by
          rw [List.find?_eq_none]
          intro x hx hmatch
          rw [lootMatch, Bool.and_eq_true] at hmatch
          obtain ⟨hp1, hp2⟩ := hmatch
          have hxid : n = (x.id : Int) := by simpa [pyEqId] using hp1
          have hxid' : x.id = m.id := by
            have : (x.id : Int) = (m.id : Int) := hxid ▸ hid
            exact_mod_cast this
          have hxav : x.isAvailable = false :=
            unavailable_after_saveMapItem w.mapItems _ rfl x hx hxid'
          have := of_decide_eq_true hp2
          rw [hxav] at this
          exact Bool.noConfusion this.2.2.2
        exact ⟨"Item not found at this position", by simp [loot, hc2, hfalsy, hnone]⟩

/-- Witness for C2: looting the available potion at the character's
position in a concrete store succeeds. -/
theorem loot_at_most_once_witness :
    ∃ c', (loot ⟨[gSample], [], [tSample], [cSample], [mSample], []⟩ 1
      (PyVal.int 5) 77).2 = .okCharacter c' :=
  (loot_at_most_once ⟨[gSample], [], [tSample], [cSample], [mSample], []⟩ 1 cSample 5 77
      (by decide) (by decide)).1.mpr
    ⟨mSample, by decide, by decide⟩

-- ======================================================================
-- C3: a two-use interactable can be used exactly twice
-- ======================================================================

/-- Membership of the saved row after a save-by-key write. -/
theorem mem_save_self {α : Type} (key : α → Nat) (l : List α) (b : α)
    (hx : ∃ x ∈ l, key x = key b) :
    b ∈ l.map (fun x => if key x = key b then b else x) := by
  obtain ⟨x, hxm, hxk⟩ := hx
  have h := List.mem_map_of_mem (fun y => if key y = key b then b else y) hxm
  simpa [hxk] using h

/-- One successful interact request, as a reusable step: all checks
pass, so the handler saves the bumped interactable and returns it. -/
theorem interact_ok_step (w : World) (pk : Nat) (i : Interactable) (cn : Int)
    (ch : Character) (t : Nat)
    (hfind : getInteractableObject w pk = some i)
    (hcn : cn ≠ 0)
    (hlook : interactCharacterLookup w (PyVal.int cn) i.gameId = some ch)
    (hposQ : ch.positionQ = i.positionQ) (hposR : ch.positionR = i.positionR)
    (hact : i.isActive = true)
    (hnotmax : ¬(i.maxUses > 0 ∧ i.currentUses ≥ i.maxUses)) :
    interact w pk (PyVal.int cn) t =
      ({ w with
          interactables := saveInteractable w.interactables
            (interactNext i ch (tickOf w i.gameId) t) },
       .okInteractable (interactNext i ch (tickOf w i.gameId) t)) := by
  have hfalsy : pyFalsy (PyVal.int cn) = false := by simp [pyFalsy, hcn]
  simp [interact, hfind, hfalsy, hlook, hposQ, hposR, hact, hnotmax, interactNext]

/-- One interact request against an interactable whose use limit is
reached: the handler rejects it with the "maximum times" error and the
store is unchanged. -/
theorem interact_maxed_step (w : World) (pk : Nat) (i : Interactable)
    (v : PyVal) (ch' : Character) (t : Nat)
    (hfind : getInteractableObject w pk = some i)
    (hv : pyFalsy v = false)
    (hlook : interactCharacterLookup w v i.gameId = some ch')
    (hposQ : ch'.positionQ = i.positionQ) (hposR : ch'.positionR = i.positionR)
    (hact : i.isActive = true)
    (hmaxed : i.maxUses > 0 ∧ i.currentUses ≥ i.maxUses) :
    interact w pk v t = (w, .badRequest "Interactable has been used maximum times") := by
  simp [interact, hfind, hv, hlook, hposQ, hposR, hact, hmaxed]

/-- Claim C3: on an active interactable with `max_uses = 2` and
`current_uses = 0`, interact by a co-located character of the same game
succeeds exactly twice — each success incrementing `current_uses`,
stamping `last_used_tick` with the game's `current_tick` and appending a
`{character_id, character_name, tick, timestamp, result}` record — and
every further attempt (by any co-located character, regardless of
cooldown state) fails with the "maximum times" error, leaving the store
unchanged. -/
theorem interact_two_uses (w : World) (pk : Nat) (i : Interactable) (cn : Int)
    (ch : Character) (g : Game) (t1 t2 : Nat)
    (hfind : getInteractableObject w pk = some i)
    (hcn : cn ≠ 0)
    (hlook : interactCharacterLookup w (PyVal.int cn) i.gameId = some ch)
    (hposQ : ch.positionQ = i.positionQ) (hposR : ch.positionR = i.positionR)
    (hact : i.isActive = true) (hmax : i.maxUses = 2) (hcur : i.currentUses = 0)
    (hg : w.games.find? (fun x => decide (x.id = i.gameId)) = some g) :
    tickOf w i.gameId = g.currentTick ∧
    interact w pk (PyVal.int cn) t1 =
      ({ w with
          interactables := saveInteractable w.interactables
            (interactNext i ch (tickOf w i.gameId) t1) },
       .okInteractable (interactNext i ch (tickOf w i.gameId) t1)) ∧
    interact
      ({ w with
          interactables := saveInteractable w.interactables
            (interactNext i ch (tickOf w i.gameId) t1) })
      pk (PyVal.int cn) t2 =
      ({ w with
          interactables := saveInteractable
            (saveInteractable w.interactables (interactNext i ch (tickOf w i.gameId) t1))
            (interactNext (interactNext i ch (tickOf w i.gameId) t1) ch
              (tickOf w i.gameId) t2) },
       .okInteractable
         (interactNext (interactNext i ch (tickOf w i.gameId) t1) ch
           (tickOf w i.gameId) t2)) ∧
    (∀ (v : PyVal) (ch' : Character) (t3 : Nat),
      pyFalsy v = false →
      interactCharacterLookup
        ({ w with
            interactables := saveInteractable
              (saveInteractable w.interactables (interactNext i ch (tickOf w i.gameId) t1))
              (interactNext (interactNext i ch (tickOf w i.gameId) t1) ch
                (tickOf w i.gameId) t2) }) v i.gameId = some ch' →
      ch'.positionQ = i.positionQ → ch'.positionR = i.positionR →
      interact
        ({ w with
            interactables := saveInteractable
              (saveInteractable w.interactables (interactNext i ch (tickOf w i.gameId) t1))
              (interactNext (interactNext i ch (tickOf w i.gameId) t1) ch
                (tickOf w i.gameId) t2) })
        pk v t3 =
        ({ w with
            interactables := saveInteractable
              (saveInteractable w.interactables (interactNext i ch (tickOf w i.gameId) t1))
              (interactNext (interactNext i ch (tickOf w i.gameId) t1) ch
                (tickOf w i.gameId) t2) },
         .badRequest "Interactable has been used maximum times")) := by
  have hfind' : w.interactables.find? (fun x => decide (x.id = pk)) = some i := hfind
  have hpk : i.id = pk := by
    have hp := List.find?_some hfind'
    simpa using hp
  have hmem : i ∈ w.interactables := List.mem_of_find?_eq_some hfind'
  have htick : tickOf w i.gameId = g.currentTick := by simp [tickOf, hg]
  have hfind1 : getInteractableObject
      ({ w with
          interactables := saveInteractable w.interactables
            (interactNext i ch (tickOf w i.gameId) t1) }) pk =
      some (interactNext i ch (tickOf w i.gameId) t1) := by
    rw [← hpk]
    exact find?_save_self Interactable.id w.interactables
      (interactNext i ch (tickOf w i.gameId) t1) ⟨i, hmem, rfl⟩
  have hm1 : interactNext i ch (tickOf w i.gameId) t1 ∈
      saveInteractable w.interactables (interactNext i ch (tickOf w i.gameId) t1) :=
    mem_save_self Interactable.id w.interactables
      (interactNext i ch (tickOf w i.gameId) t1) ⟨i, hmem, rfl⟩
  have hfind2 : getInteractableObject
      ({ w with
          interactables := saveInteractable
            (saveInteractable w.interactables (interactNext i ch (tickOf w i.gameId) t1))
            (interactNext (interactNext i ch (tickOf w i.gameId) t1) ch
              (tickOf w i.gameId) t2) }) pk =
      some (interactNext (interactNext i ch (tickOf w i.gameId) t1) ch
        (tickOf w i.gameId) t2) := by
    rw [← hpk]
    exact find?_save_self Interactable.id
      (saveInteractable w.interactables (interactNext i ch (tickOf w i.gameId) t1))
      (interactNext (interactNext i ch (tickOf w i.gameId) t1) ch (tickOf w i.gameId) t2)
      ⟨interactNext i ch (tickOf w i.gameId) t1, hm1, rfl⟩
  refine ⟨htick, ?_, ?_, ?_⟩
  · exact interact_ok_step w pk i cn ch t1 hfind hcn hlook hposQ hposR hact
      (by rw [hmax, hcur]; decide)
  · exact interact_ok_step _ pk (interactNext i ch (tickOf w i.gameId) t1) cn ch t2
      hfind1 hcn hlook hposQ hposR hact
      (by simp only [interactNext, hmax, hcur]; decide)
  · intro v ch' t3 hv hlook2 hq' hr'
    exact interact_maxed_step _ pk
      (interactNext (interactNext i ch (tickOf w i.gameId) t1) ch (tickOf w i.gameId) t2)
      v ch' t3 hfind2 hv hlook2 hq' hr' hact
      (by simp only [interactNext, hmax, hcur]; decide)

/-- Witness for C3: the first use of the fresh two-use chest in a
concrete store succeeds and stamps tick 10. -/
theorem interact_two_uses_witness :
    (interact ⟨[gSample], [], [], [cSample], [], [iTwoUse]⟩ 7 (PyVal.int 1) 11).2 =
      .okInteractable (interactNext iTwoUse cSample 10 11) := by
  have h := interact_two_uses ⟨[gSample], [], [], [cSample], [], [iTwoUse]⟩ 7 iTwoUse 1
    cSample gSample 11 12 (by decide) (by decide) (by decide) (by decide) (by decide)
    (by decide) (by decide) (by decide) (by decide)
  rw [h.2.1]
  rfl

-- ======================================================================
-- C6: (game, q, r) is unique across tiles
-- ======================================================================

/-- One tile-creation request preserves key uniqueness. -/
theorem createTile_preserves_unique (w : World) (newId gid : Nat) (q r : Int)
    (terrain : String) (elev : Int) (pass : Bool)
    (huniq : tilesUnique w.hexTiles) :
    tilesUnique ((createTile w newId gid q r terrain elev pass).1).hexTiles := by
  by_cases h : tileKeyTaken w gid q r = true
  · simpa [createTile, h] using huniq
  · have h' : tileKeyTaken w gid q r = false := by simpa using h
    have hgoal : ((createTile w newId gid q r terrain elev pass).1).hexTiles =
        w.hexTiles ++ [⟨newId, gid, q, r, terrain, elev, pass⟩] := by
      simp [createTile, h']
    rw [hgoal, tilesUnique, List.pairwise_append]
    refine ⟨huniq, List.pairwise_singleton _ _, ?_⟩
    intro a ha b hb
    have hb' : b = (⟨newId, gid, q, r, terrain, elev, pass⟩ : HexTile) := by
      simpa using hb
    subst hb'
    intro hk
    have htaken : tileKeyTaken w gid q r = true := by
      rw [tileKeyTaken, List.any_eq_true]
      exact ⟨a, ha, by simp [hk.1, hk.2.1, hk.2.2]⟩
    rw [htaken] at h'
    cases h'

/-- Claim C6: creating a tile at coordinates already occupied in that
game fails with a validation error and leaves the store untouched, and
consequently every sequence of tile-creation requests preserves the
at-most-one-tile-per-`(game, q, r)` invariant. -/
theorem tile_key_unique (w : World) (ops : List TileOp)
    (huniq : tilesUnique w.hexTiles) :
    (∀ (newId gid : Nat) (q r : Int) (terrain : String) (elev : Int) (pass : Bool),
      (∃ t ∈ w.hexTiles, t.gameId = gid ∧ t.q = q ∧ t.r = r) →
      createTile w newId gid q r terrain elev pass =
        (w, .badRequest "A tile already exists at these coordinates")) ∧
    tilesUnique (applyTileOps w ops).hexTiles := by
  constructor
  · intro newId gid q r terrain elev pass ⟨t, htm, hk⟩
    have htaken : tileKeyTaken w gid q r = true := by
      rw [tileKeyTaken, List.any_eq_true]
      exact ⟨t, htm, by simp [hk.1, hk.2.1, hk.2.2]⟩
    simp [createTile, htaken]
  · induction ops generalizing w with
    | nil => exact huniq
    | cons o rest ih =>
      rw [applyTileOps, List.foldl_cons]
      exact ih _ (createTile_preserves_unique w o.newId o.gid o.q o.r o.terrain
        o.elevation o.passable huniq)

/-- Witness for C6: a duplicate creation at the occupied origin fails,
and a two-request sequence (one duplicate, one fresh) keeps the key
invariant. -/
theorem tile_key_unique_witness :
    createTile ⟨[gSample], [], [tSample], [], [], []⟩ 9 1 0 0 "forest" 0 false =
      (⟨[gSample], [], [tSample], [], [], []⟩,
       .badRequest "A tile already exists at these coordinates") ∧
    tilesUnique (applyTileOps ⟨[gSample], [], [tSample], [], [], []⟩
      [⟨9, 1, 0, 0, "forest", 0, false⟩, ⟨10, 1, 1, 0, "plains", 0, true⟩]).hexTiles := by
  have h := tile_key_unique ⟨[gSample], [], [tSample], [], [], []⟩
    [⟨9, 1, 0, 0, "forest", 0, false⟩, ⟨10, 1, 1, 0, "plains", 0, true⟩]
    (by simp [tilesUnique])
  exact ⟨h.1 9 1 0 0 "forest" 0 false ⟨tSample, by decide, by decide⟩, h.2⟩

-- ======================================================================
-- C7: item catalog validation
-- ======================================================================

/-- Claim C7 counterexample: the claim "an accepted request's
stat_modifiers, when present, is a flat mapping whose values are ALL
NUMERIC" fails on the code: `itemInputBool` carries
`stat_modifiers = {"strength": true}` and is accepted, because Python's
`isinstance(True, (int, float))` is `True`; but a boolean is not a
numeric value. -/
theorem item_validation_counterexample :
    itemCreateValid itemInputBool = true ∧
    spec_statModifiersNumeric itemInputBool.statModifiers = false := by
  exact ⟨by decide, by decide⟩

/-- Claim C7 (amended): every accepted item create request has a
non-empty (stripped) name, a rarity among common/rare/legendary,
stack_size in [1, 9999], cooldown ≥ 0, upgrade_level in [0, 100],
drop_rate in [0, 1], durability ≥ 0 when present, and stat_modifiers,
when present, a flat mapping whose values are all numeric OR BOOLEAN
(the `isinstance(val, (int, float))` check admits booleans); an accepted
update request satisfies the same bounds on every submitted field. -/
theorem item_validation_spec (inp : ItemInput) :
    (itemCreateValid inp = true →
      (∃ s, inp.name = some s ∧ validate_name s = true) ∧
      (∃ ra, inp.rarity = some ra ∧ ra ∈ rarityChoices) ∧
      (∀ v, inp.stackSize = some v → 1 ≤ v ∧ v ≤ 9999) ∧
      (∀ v, inp.cooldown = some v → 0 ≤ v) ∧
      (∀ v, inp.upgradeLevel = some v → 0 ≤ v ∧ v ≤ 100) ∧
      (∀ v, inp.dropRate = some v → 0 ≤ v ∧ v ≤ 1) ∧
      (∀ v, inp.durability = some v → 0 ≤ v) ∧
      (∀ j, inp.statModifiers = some j →
        ∃ kvs, j = JVal.jobj kvs ∧ ∀ kv ∈ kvs, pyIsNumber kv.2 = true)) ∧
    (itemUpdateValid inp = true →
      (∀ s, inp.name = some s → charFieldOk s = true) ∧
      (∀ ra, inp.rarity = some ra → ra ∈ rarityChoices) ∧
      (∀ v, inp.stackSize = some v → 1 ≤ v ∧ v ≤ 9999) ∧
      (∀ v, inp.cooldown = some v → 0 ≤ v) ∧
      (∀ v, inp.upgradeLevel = some v → 0 ≤ v ∧ v ≤ 100) ∧
      (∀ v, inp.dropRate = some v → 0 ≤ v ∧ v ≤ 1) ∧
      (∀ v, inp.durability = some v → 0 ≤ v) ∧
      (∀ j, inp.statModifiers = some j →
        ∃ kvs, j = JVal.jobj kvs ∧ ∀ kv ∈ kvs, pyIsNumber kv.2 = true)) := by
  constructor
  · intro h
    rw [itemCreateValid] at h
    simp only [Bool.and_eq_true] at h
    obtain ⟨⟨⟨⟨⟨⟨⟨⟨hname, htyp⟩, hrar⟩, hss⟩, hcd⟩, hul⟩, hdr⟩, hdu⟩, hsm⟩ := h
    refine ⟨?_, ?_, ?_, ?_, ?_, ?_, ?_, ?_⟩
    · cases hn : inp.name with
      | none => rw [hn] at hname; cases hname
      | some s =>
        rw [hn] at hname
        simp only [Bool.and_eq_true] at hname
        exact ⟨s, rfl, hname.2⟩
    · cases hr : inp.rarity with
      | none => rw [hr] at hrar; cases hrar
      | some ra =>
        rw [hr] at hrar
        exact ⟨ra, rfl, by simpa [validate_rarity] using hrar⟩
    · intro v hv
      rw [hv] at hss
      simpa [optOk, validate_stack_size] using hss
    · intro v hv
      rw [hv] at hcd
      simpa [optOk, validate_cooldown] using hcd
    · intro v hv
      rw [hv] at hul
      simpa [optOk, validate_upgrade_level] using hul
    · intro v hv
      rw [hv] at hdr
      simpa [optOk, validate_drop_rate] using hdr
    · intro v hv
      rw [hv] at hdu
      simpa [validate_durability] using hdu
    · intro j hj
      rw [hj] at hsm
      cases j with
      | jobj kvs =>
        refine ⟨kvs, rfl, ?_⟩
        intro kv hkv
        have hall : kvs.all (fun kv => pyIsNumber kv.2) = true := by
          simpa [validate_stat_modifiers] using hsm
        exact List.all_eq_true.mp hall kv hkv
      | jnull => simp [validate_stat_modifiers] at hsm
      | jbool b => simp [validate_stat_modifiers] at hsm
      | jnum x => simp [validate_stat_modifiers] at hsm
      | jstr s => simp [validate_stat_modifiers] at hsm
      | jarr xs => simp [validate_stat_modifiers] at hsm
  · intro h
    rw [itemUpdateValid] at h
    simp only [Bool.and_eq_true] at h
    obtain ⟨⟨⟨⟨⟨⟨⟨⟨hname, htyp⟩, hrar⟩, hss⟩, hcd⟩, hul⟩, hdr⟩, hdu⟩, hsm⟩ := h
    refine ⟨?_, ?_, ?_, ?_, ?_, ?_, ?_, ?_⟩
    · intro s hs
      rw [hs] at hname
      simpa [optOk] using hname
    · intro ra hr
      rw [hr] at hrar
      simpa [optOk, validate_rarity] using hrar
    · intro v hv
      rw [hv] at hss
      simpa [optOk, validate_stack_size] using hss
    · intro v hv
      rw [hv] at hcd
      simpa [optOk, validate_cooldown] using hcd
    · intro v hv
      rw [hv] at hul
      simpa [optOk, validate_upgrade_level] using hul
    · intro v hv
      rw [hv] at hdr
      simpa [optOk, validate_drop_rate] using hdr
    · intro v hv
      rw [hv] at hdu
      simpa [validate_durability] using hdu
    · intro j hj
      rw [hj] at hsm
      cases j with
      | jobj kvs =>
        refine ⟨kvs, rfl, ?_⟩
        intro kv hkv
        have hall : kvs.all (fun kv => pyIsNumber kv.2) = true := by
          simpa [validate_stat_modifiers] using hsm
        exact List.all_eq_true.mp hall kv hkv
      | jnull => simp [validate_stat_modifiers] at hsm
      | jbool b => simp [validate_stat_modifiers] at hsm
      | jnum x => simp [validate_stat_modifiers] at hsm
      | jstr s => simp [validate_stat_modifiers] at hsm
      | jarr xs => simp [validate_stat_modifiers] at hsm

/-- Witness for C7's amended theorem: the accepted boolean-modifier
request indeed has a present, well-formed rarity. -/
theorem item_validation_spec_witness :
    ∃ ra, itemInputBool.rarity = some ra ∧ ra ∈ rarityChoices :=
  ((item_validation_spec itemInputBool).1 (by decide)).2.1

-- ======================================================================
-- C8: dead characters are unreachable and stay dead
-- ======================================================================

/-- Facts carried by a successful character lookup: the row is stored,
not dead, and has the requested primary key. -/
theorem getCharacterObject_props (w : World) (pk : Nat) (c2 : Character)
    (h : getCharacterObject w pk = some c2) :
    c2 ∈ w.characters ∧ c2.status ≠ "dead" ∧ c2.id = pk := by
  have h' : (characterQueryset w).find? (fun c => decide (c.id = pk)) = some c2 := h
  have hm := List.mem_of_find?_eq_some h'
  have hp := List.find?_some h'
  rw [characterQueryset] at hm
  obtain ⟨hmm, ha⟩ := List.mem_filter.mp hm
  exact ⟨hmm, by simpa using ha, by simpa using hp⟩

/-- A dead row survives any save of a living row: the saved row has a
living row's primary key, which by id-uniqueness differs from the dead
row's, so the map-update leaves the dead row in place. -/
theorem dead_mem_save (cs : List Character) (c c' : Character)
    (hmem : c ∈ cs) (hdead : c.status = "dead")
    (hnodup : (cs.map Character.id).Nodup)
    (halive : ∃ c2 ∈ cs, c2.status ≠ "dead" ∧ c2.id = c'.id) :
    c ∈ saveCharacter cs c' := by
  obtain ⟨c2, h2m, h2a, h2id⟩ := halive
  apply mem_save_of_key_ne Character.id cs c' c hmem
  intro he
  have hcc : c = c2 := List.inj_on_of_nodup_map hnodup hmem h2m (he.trans h2id.symm)
  rw [hcc] at hdead
  exact h2a hdead

/-- Case shape of the move handler's world effect. -/
theorem move_world_shape (w : World) (pk : Nat) (q r : Option Int) :
    (move w pk q r).1 = w ∨
    ∃ c2 c', getCharacterObject w pk = some c2 ∧ c'.id = c2.id ∧
      (move w pk q r).1 = { w with characters := saveCharacter w.characters c' } := by
  cases hc2 : getCharacterObject w pk with
  | none => exact Or.inl (by simp [move, hc2])
  | some c2 =>
    cases q with
    | none => exact Or.inl (by simp [move, hc2])
    | some q' =>
      cases r with
      | none => exact Or.inl (by simp [move, hc2])
      | some r' =>
        cases ht : tileAt w c2.gameId q' r' with
        | none => exact Or.inl (by simp [move, hc2, ht])
        | some t =>
          by_cases hp : t.isPassable = true
          · exact Or.inr ⟨c2, { c2 with positionQ := q', positionR := r', status := "idle" },
              rfl, rfl, by simp [move, hc2, ht, hp]⟩
          · have hp' : t.isPassable = false := by simpa using hp
            exact Or.inl (by simp [move, hc2, ht, hp'])

/-- Case shape of the loot handler's world effect. -/
theorem loot_world_shape (w : World) (pk : Nat) (v : PyVal) (now : Nat) :
    (loot w pk v now).1 = w ∨
    ∃ c2 c' m', getCharacterObject w pk = some c2 ∧ c'.id = c2.id ∧
      (loot w pk v now).1 = { w with characters := saveCharacter w.characters c',
                                     mapItems := saveMapItem w.mapItems m' } := by
  cases hc2 : getCharacterObject w pk with
  | none => exact Or.inl (by simp [loot, hc2])
  | some c2 =>
    by_cases hv : pyFalsy v = true
    · exact Or.inl (by simp [loot, hc2, hv])
    · have hv' : pyFalsy v = false := by simpa using hv
      cases hm : w.mapItems.find? (lootMatch v c2) with
      | none => exact Or.inl (by simp [loot, hc2, hv', hm])
      | some m =>
        exact Or.inr ⟨c2,
          { c2 with inventory := c2.inventory ++ [⟨m.itemId, m.itemType, m.quantity, now⟩] },
          { m with isAvailable := false, collectedAt := some now, collectedById := some c2.id },
          rfl, rfl, by simp [loot, hc2, hv', hm]⟩

/-- Case shape of the update handler's world effect. -/
theorem update_world_shape (w : World) (pk : Nat) (inp : CharacterUpdateInput) :
    (updateCharacter w pk inp).1 = w ∨
    ∃ c2 c', getCharacterObject w pk = some c2 ∧ c'.id = c2.id ∧
      (updateCharacter w pk inp).1 = { w with characters := saveCharacter w.characters c' } := by
  cases hc2 : getCharacterObject w pk with
  | none => exact Or.inl (by simp [updateCharacter, hc2])
  | some c2 =>
    by_cases h1 : healthTooHigh c2 inp.health = true
    · exact Or.inl (by simp [updateCharacter, hc2, h1])
    · have h1' : healthTooHigh c2 inp.health = false := by simpa using h1
      by_cases h2 : staminaTooHigh c2 inp.stamina = true
      · exact Or.inl (by simp [updateCharacter, hc2, h1', h2])
      · have h2' : staminaTooHigh c2 inp.stamina = false := by simpa using h2
        by_cases h3 : statusChoiceOk inp.status = true
        · exact Or.inr ⟨c2,
            { c2 with
              health := inp.health.getD c2.health,
              stamina := inp.stamina.getD c2.stamina,
              positionQ := inp.positionQ.getD c2.positionQ,
              positionR := inp.positionR.getD c2.positionR,
              status := inp.status.getD c2.status },
            rfl, rfl, by simp [updateCharacter, hc2, h1', h2', h3]⟩
        · have h3' : statusChoiceOk inp.status = false := by simpa using h3
          exact Or.inl (by simp [updateCharacter, hc2, h1', h2', h3'])

/-- The interact handler never writes the character table. -/
theorem interact_characters_unchanged (w : World) (pk : Nat) (v : PyVal) (t : Nat) :
    ((interact w pk v t).1).characters = w.characters := by
  rw [interact]
  repeat first | rfl | split

/-- Claim C8: a dead character is excluded from the view queryset, so
retrieve, update/partial_update, move and loot addressed at its id all
return 404 with the store untouched; and no modelled mutation (move,
loot, update, interact — each of which only writes rows fetched through
a living lookup) ever removes or alters the dead row, so nothing
transitions a character out of `dead`. -/
theorem dead_characters_unreachable (w : World) (c : Character)
    (hmem : c ∈ w.characters) (hdead : c.status = "dead")
    (hnodup : (w.characters.map Character.id).Nodup) :
    retrieveCharacter w c.id = (w, .notFound "Not found.") ∧
    (∀ inp, updateCharacter w c.id inp = (w, .notFound "Not found.")) ∧
    (∀ q r, move w c.id q r = (w, .notFound "Not found.")) ∧
    (∀ v now, loot w c.id v now = (w, .notFound "Not found.")) ∧
    (∀ pk2 q r, c ∈ ((move w pk2 q r).1).characters) ∧
    (∀ pk2 v now, c ∈ ((loot w pk2 v now).1).characters) ∧
    (∀ pk2 inp, c ∈ ((updateCharacter w pk2 inp).1).characters) ∧
    (∀ pk2 v now, c ∈ ((interact w pk2 v now).1).characters) := by
  have hnone : getCharacterObject w c.id = none := by
    apply getCharacterObject_eq_none_of_dead
    intro x hx hid
    have hxc : x = c := List.inj_on_of_nodup_map hnodup hx hmem hid
    rw [hxc]
    exact hdead
  refine ⟨by simp [retrieveCharacter, hnone], fun inp => by simp [updateCharacter, hnone],
    fun q r => by simp [move, hnone], fun v now => by simp [loot, hnone], ?_, ?_, ?_, ?_⟩
  · intro pk2 q r
    rcases move_world_shape w pk2 q r with h | ⟨c2, c', hc2, hid, h⟩
    · rw [h]; exact hmem
    · rw [h]
      obtain ⟨h2m, h2a, _⟩ := getCharacterObject_props w pk2 c2 hc2
      exact dead_mem_save w.characters c c' hmem hdead hnodup ⟨c2, h2m, h2a, hid.symm⟩
  · intro pk2 v now
    rcases loot_world_shape w pk2 v now with h | ⟨c2, c', m', hc2, hid, h⟩
    · rw [h]; exact hmem
    · rw [h]
      obtain ⟨h2m, h2a, _⟩ := getCharacterObject_props w pk2 c2 hc2
      exact dead_mem_save w.characters c c' hmem hdead hnodup ⟨c2, h2m, h2a, hid.symm⟩
  · intro pk2 inp
    rcases update_world_shape w pk2 inp with h | ⟨c2, c', hc2, hid, h⟩
    · rw [h]; exact hmem
    · rw [h]
      obtain ⟨h2m, h2a, _⟩ := getCharacterObject_props w pk2 c2 hc2
      exact dead_mem_save w.characters c c' hmem hdead hnodup ⟨c2, h2m, h2a, hid.symm⟩
  · intro pk2 v now
    rw [interact_characters_unchanged w pk2 v now]
    exact hmem

/-- Witness for C8: the dead character of a concrete store is both
unreachable by retrieve and unreachable by move. -/
theorem dead_characters_unreachable_witness :
    retrieveCharacter ⟨[gSample], [], [tSample], [cSample, cDead], [], []⟩ cDead.id =
      (⟨[gSample], [], [tSample], [cSample, cDead], [], []⟩, .notFound "Not found.") ∧
    move ⟨[gSample], [], [tSample], [cSample, cDead], [], []⟩ cDead.id (some 0) (some 0) =
      (⟨[gSample], [], [tSample], [cSample, cDead], [], []⟩, .notFound "Not found.") := by
  have h := dead_characters_unreachable ⟨[gSample], [], [tSample], [cSample, cDead], [], []⟩
    cDead (by decide) (by decide) (by decide)
  exact ⟨h.1, h.2.2.1 (some 0) (some 0)⟩
